import Mathlib

/-!
Shallow embedding of the temperature-challenge program (Go, `main.go`).

The program chains three HTTP fetches: `largest100USCities` (coordinates of
the 100 most populous US cities), `coordinateWOEID` (coordinate pair to
Where-On-Earth ID), `woeIDTemperature` (WOE ID plus current date to a
temperature reading), and `main` orchestrates them, accumulating a running
temperature sum and count and printing one summary line.

Modeling conventions:
* HTTP transport (`httpClient.Get` + `ioutil.ReadAll`) is a black box; each
  fetching function takes the decoded response as an `Except GoErr _` input:
  `Except.error` is a transport/IO failure, `Except.ok` carries the data the
  gjson queries of the source read out of the body.
* `float64` values (coordinates, temperatures) are modeled as `ℚ`.
* gjson numeric getters return `0` for an absent path; response elements whose
  relevant field may be absent are modeled as `Option` and read with `getD 0`.
* A Go function returning `(value, err)` with `err ≠ nil` is modeled as
  `Except.error err`: by Go convention the accompanying value is not used by
  the caller (in this program `main` aborts, or, for the soft
  `errNoTemperature` case, uses the returned zero, which the orchestrator
  model reproduces explicitly).
* The Go runtime panic of an out-of-bounds array write is modeled by the
  `FetchOut.indexOutOfRange` / `Option.none` outcome.
-/

/-- Sentinel errors of the program (`errors.New` values at the top of the
source) plus an opaque transport/IO error standing for any failure of
`httpClient.Get` or `ioutil.ReadAll`. -/
inductive GoErr : Type
  | errNot100Cities
  | errNoWoe
  | errNoTemperature
  | transport (code : Nat)
deriving DecidableEq

/-- Outcome of `largest100USCities`: success, a returned error, or the Go
runtime panic raised by an out-of-bounds array write. -/
inductive FetchOut (α : Type) : Type
  | ok (a : α)
  | err (e : GoErr)
  | indexOutOfRange
deriving DecidableEq

/-- The `coordinates` struct of the source: latitude and longitude. -/
structure coordinates where
  Latitude : ℚ
  Longitude : ℚ
deriving DecidableEq

/-- Extraction of one coordinate record, as the loop body of
`largest100USCities` does it: `cityJSON.Get("0").Float()` and
`cityJSON.Get("1").Float()`. A record is the positional numeric array found at
`records.#.fields.coordinates`; gjson yields `0` for a missing index. -/
def parseCoord (record : List ℚ) : coordinates :=
  { Latitude := record.getD 0 0, Longitude := record.getD 1 0 }

/-- The write loop of `largest100USCities`: for each record at `index`, do
`coords[index] = *currentCords`. The Go array write carries a runtime bounds
check: writing at `index ≥ 100` panics, modeled by `none`. -/
def fillCoords : List (List ℚ) → Nat → List coordinates → Option (List coordinates)
  | [], _, coords => some coords
  | record :: rest, index, coords =>
    if index < coords.length then
      fillCoords rest (index + 1) (coords.set index (parseCoord record))
    else
      none

/-- The function `largest100USCities` of the source. The input is the decoded
list of coordinate records of the cities response (or a transport error). The
coordinate array starts as the Go zero value (100 zero coordinate pairs), the
loop writes each parsed record at its index, and afterwards the last loop
index (`records.length - 1`, which is `0` when the loop never ran, matching
the unassigned Go variable) is checked against `99`; any other value returns
`ErrNot100Cities`. -/
def largest100USCities (fetch : Except GoErr (List (List ℚ))) :
    FetchOut (List coordinates) :=
  match fetch with
  | Except.error e => FetchOut.err e
  | Except.ok records =>
    match fillCoords records 0 (List.replicate 100 { Latitude := 0, Longitude := 0 }) with
    | none => FetchOut.indexOutOfRange
    | some coords =>
      if records.length - 1 ≠ 99 then FetchOut.err GoErr.errNot100Cities
      else FetchOut.ok coords

/-- The function `coordinateWOEID` of the source. The input models the decoded
resolver response: the list of array elements, each carrying an optional
`woeid` field. The source reads `gjson "0.woeid" |>.Int()`, which is `0` when
the array is empty or the field absent, and returns `ErrNoWoe` on `0`. -/
def coordinateWOEID (fetch : Except GoErr (List (Option ℤ))) : Except GoErr ℤ :=
  match fetch with
  | Except.error e => Except.error e
  | Except.ok elements =>
    let woeID : ℤ := (elements.headD none).getD 0
    if woeID = 0 then Except.error GoErr.errNoWoe else Except.ok woeID

/-- The function `woeIDTemperature` of the source. The input models the
decoded temperature response: the list of array elements, each carrying an
optional `the_temp` field. The source reads `gjson "0.the_temp" |>.Float()`,
which is `0` when the array is empty or the field absent, and returns
`(0, ErrNoTemperature)` on `0`. The current date read from the clock only
feeds the request URL, which the transport black box absorbs. -/
def woeIDTemperature (fetch : Except GoErr (List (Option ℚ))) : Except GoErr ℚ :=
  match fetch with
  | Except.error e => Except.error e
  | Except.ok elements =>
    let temperature : ℚ := (elements.headD none).getD 0
    if temperature = 0 then Except.error GoErr.errNoTemperature
    else Except.ok temperature

/-- Environment of one run: the decoded response (or transport failure) that
each HTTP call would observe. The per-city calls are keyed by the loop
iteration index; the request URLs built from the coordinate, the WOE ID and
the date do not constrain the responses in this model. -/
structure Env where
  cityFetch : Except GoErr (List (List ℚ))
  woeFetch : Nat → Except GoErr (List (Option ℤ))
  tempFetch : Nat → Except GoErr (List (Option ℚ))

/-- Mutable state of `main`'s per-city loop: the accumulators `tempCount` and
`tempSum`, plus instrumentation for the claims: how many resolver and
temperature calls were issued and the WOE IDs of the logged skip messages, in
order. -/
structure LoopState where
  tempCount : ℚ
  tempSum : ℚ
  resolverCalls : Nat
  tempCalls : Nat
  skipLogs : List ℤ
deriving DecidableEq

/-- One iteration of `main`'s loop for city `i`: resolve the WOE ID (any
failure is fatal), fetch the temperature (on `ErrNoTemperature` log the skip
and keep the returned zero temperature; any other failure is fatal), then
unconditionally run `tempCount += 1` and `tempSum += temperature`. A fatal
exit carries the state at that point. -/
def cityStep (env : Env) (i : Nat) (st : LoopState) :
    Except (GoErr × LoopState) LoopState :=
  let st1 : LoopState := { st with resolverCalls := st.resolverCalls + 1 }
  match coordinateWOEID (env.woeFetch i) with
  | Except.error e => Except.error (e, st1)
  | Except.ok woeID =>
    let st2 : LoopState := { st1 with tempCalls := st1.tempCalls + 1 }
    match woeIDTemperature (env.tempFetch i) with
    | Except.error GoErr.errNoTemperature =>
      Except.ok { st2 with
        skipLogs := st2.skipLogs ++ [woeID]
        tempCount := st2.tempCount + 1
        tempSum := st2.tempSum + 0 }
    | Except.error e => Except.error (e, st2)
    | Except.ok temperature =>
      Except.ok { st2 with
        tempCount := st2.tempCount + 1
        tempSum := st2.tempSum + temperature }

/-- The per-city loop of `main` over the listed iteration indices: runs
`cityStep` for each index in order, stopping at the first fatal error. -/
def runCities (env : Env) : List Nat → LoopState → LoopState × Option GoErr
  | [], st => (st, none)
  | i :: rest, st =>
    match cityStep env i st with
    | Except.error (e, stE) => (stE, some e)
    | Except.ok stNext => runCities env rest stNext

/-- Observable outcome of one run of `main`: the number of resolver and
temperature calls issued, the skip log lines, the single summary line (the
printed pair of `int(tempCount)` and `tempSum / tempCount`) when it was
printed, and the fatal error when `logger.Fatalf` fired. -/
structure RunReport where
  resolverCalls : Nat
  tempCalls : Nat
  skipLogs : List ℤ
  summary : Option (ℚ × ℚ)
  fatalErr : Option GoErr
deriving DecidableEq

/-- The zero-valued accumulators `main` declares before its loop. -/
def initState : LoopState :=
  { tempCount := 0, tempSum := 0, resolverCalls := 0, tempCalls := 0, skipLogs := [] }

/-- The function `main` of the source: fetch the 100 largest US cities (fatal
on failure, before any per-city call), loop over the coordinates, and print
the one summary line `tempSum / tempCount` with `int(tempCount)` cities. The
result is `none` when the run dies of the runtime panic inside
`largest100USCities`. -/
def mainGo (env : Env) : Option RunReport :=
  match largest100USCities env.cityFetch with
  | FetchOut.indexOutOfRange => none
  | FetchOut.err e =>
    some { resolverCalls := 0, tempCalls := 0, skipLogs := [],
           summary := none, fatalErr := some e }
  | FetchOut.ok coords =>
    let result := runCities env (List.range coords.length) initState
    match result.2 with
    | some e =>
      some { resolverCalls := result.1.resolverCalls, tempCalls := result.1.tempCalls
             skipLogs := result.1.skipLogs, summary := none, fatalErr := some e }
    | none =>
      some { resolverCalls := result.1.resolverCalls, tempCalls := result.1.tempCalls
             skipLogs := result.1.skipLogs
             summary := some (result.1.tempCount, result.1.tempSum / result.1.tempCount)
             fatalErr := none }


/-- Concrete run environment for scenario A of the spec: 100 valid city
records, every resolver call answers WOE ID 7, every temperature call answers
a 50-degree reading. -/
def envScenarioA : Env :=
  { cityFetch := Except.ok (List.replicate 100 [(1 : ℚ), 2])
    woeFetch := fun _ => Except.ok [some 7]
    tempFetch := fun _ => Except.ok [some 50] }

/-- Concrete run environment for scenario B of the spec: 100 valid city
records, every resolver call answers WOE ID 7, and the temperature calls of
iterations 10, 20 and 30 answer an empty array (the "no temperature reading"
condition); the other 97 answer a 50-degree reading. -/
def envScenarioB : Env :=
  { cityFetch := Except.ok (List.replicate 100 [(1 : ℚ), 2])
    woeFetch := fun _ => Except.ok [some 7]
    tempFetch := fun i =>
      if i = 10 ∨ i = 20 ∨ i = 30 then Except.ok [] else Except.ok [some 50] }

/-- Concrete run environment for scenario C of the spec: the cities endpoint
answers only 95 records. -/
def envScenarioC : Env :=
  { cityFetch := Except.ok (List.replicate 95 [(1 : ℚ), 2])
    woeFetch := fun _ => Except.ok [some 7]
    tempFetch := fun _ => Except.ok [some 50] }

/-- Concrete run environment for scenario D of the spec: the resolver call of
iteration 41 (the 42nd city) answers an empty array; everything else
succeeds. -/
def envScenarioD : Env :=
  { cityFetch := Except.ok (List.replicate 100 [(1 : ℚ), 2])
    woeFetch := fun i => if i = 41 then Except.ok [] else Except.ok [some 7]
    tempFetch := fun _ => Except.ok [some 50] }

lemma fillCoords_some : ∀ (rs : List (List ℚ)) (k : Nat) (acc : List coordinates),
    k + rs.length ≤ acc.length →
    fillCoords rs k acc = some (acc.take k ++ rs.map parseCoord ++ acc.drop (k + rs.length)) := by
  intro rs
  induction rs with
  | nil =>
    intro k acc h
    simp [fillCoords]
  | cons r rs ih =>
    intro k acc h
    have hk : k < acc.length := by simp at h; omega
    rw [fillCoords, if_pos (by exact hk)]
    rw [ih (k + 1) (acc.set k (parseCoord r)) (by simp at h ⊢; omega)]
    congr 1
    have hset : (acc.set k (parseCoord r)).take (k + 1) = acc.take k ++ [parseCoord r] := by
      rw [List.set_take, List.take_succ]
      rw [List.getElem?_eq_getElem hk]
      rw [List.set_append_right _ _ (by simp)]
      simp [Nat.min_eq_left (Nat.le_of_lt hk)]
    have hdrop : (acc.set k (parseCoord r)).drop (k + 1 + rs.length) = acc.drop (k + (r :: rs).length) := by
      rw [List.drop_set, if_pos (by omega)]
      simp only [List.length_cons]
      congr 1
      omega
    rw [hset, hdrop]
    simp

lemma fillCoords_length : ∀ (rs : List (List ℚ)) (k : Nat) (acc l : List coordinates),
    fillCoords rs k acc = some l → l.length = acc.length := by
  intro rs
  induction rs with
  | nil => intro k acc l h; simp [fillCoords] at h; simp [← h]
  | cons r rs ih =>
    intro k acc l h
    rw [fillCoords] at h
    by_cases hk : k < acc.length
    · rw [if_pos hk] at h
      have := ih (k + 1) (acc.set k (parseCoord r)) l h
      simpa using this
    · rw [if_neg hk] at h
      exact absurd h (by simp)

lemma fillCoords_none_iff : ∀ (rs : List (List ℚ)) (k : Nat) (acc : List coordinates),
    fillCoords rs k acc = none ↔ (rs ≠ [] ∧ acc.length < k + rs.length) := by
  intro rs
  induction rs with
  | nil => intro k acc; simp [fillCoords]
  | cons r rs ih =>
    intro k acc
    rw [fillCoords]
    simp only [List.length_cons]
    by_cases hk : k < acc.length
    · rw [if_pos hk, ih]
      simp only [List.length_set]
      constructor
      · rintro ⟨hne, hlt⟩
        exact ⟨by simp, by omega⟩
      · rintro ⟨-, hlt⟩
        rcases rs with - | ⟨r2, rs2⟩
        · simp only [List.length_nil] at hlt
          exact absurd hk (by omega)
        · refine ⟨by simp, ?_⟩
          simp only [List.length_cons] at hlt ⊢
          omega
    · rw [if_neg hk]
      constructor
      · intro h2
        exact ⟨by simp, by omega⟩
      · intro h2
        trivial

lemma largest_err_of_lt (records : List (List ℚ)) (h : records.length < 100) :
    largest100USCities (Except.ok records) = FetchOut.err GoErr.errNot100Cities := by
  rw [largest100USCities]
  rw [fillCoords_some records 0 _ (by simp; omega)]
  simp only []
  rw [if_pos (by omega)]

lemma largest_ok_of_eq (records : List (List ℚ)) (h : records.length = 100) :
    largest100USCities (Except.ok records) = FetchOut.ok (records.map parseCoord) := by
  rw [largest100USCities]
  rw [fillCoords_some records 0 _ (by simp; omega)]
  simp only [List.take_zero, List.nil_append, Nat.zero_add]
  rw [if_neg (by omega)]
  rw [show List.drop records.length (List.replicate 100 { Latitude := 0, Longitude := 0 } : List coordinates) = [] by
    rw [h]; simp]
  simp

lemma largest_outOfRange_iff (records : List (List ℚ)) :
    largest100USCities (Except.ok records) = FetchOut.indexOutOfRange ↔ 100 < records.length := by
  constructor
  · intro h
    rw [largest100USCities] at h
    split at h
    · rename_i heq
      rw [fillCoords_none_iff] at heq
      simp only [List.length_replicate] at heq
      omega
    · split at h
      · exact FetchOut.noConfusion h
      · exact FetchOut.noConfusion h
  · intro h
    rw [largest100USCities]
    have hnone : fillCoords records 0 (List.replicate 100 { Latitude := 0, Longitude := 0 }) = none := by
      rw [fillCoords_none_iff]
      constructor
      · rintro rfl
        simp at h
      · simp only [List.length_replicate]
        omega
    rw [hnone]

lemma largest_ok_length (fetch : Except GoErr (List (List ℚ))) (c : List coordinates)
    (h : largest100USCities fetch = FetchOut.ok c) : c.length = 100 := by
  rcases fetch with e | records
  · exact FetchOut.noConfusion h
  · rw [largest100USCities] at h
    split at h
    · exact FetchOut.noConfusion h
    · rename_i coords heq
      split at h
      · exact FetchOut.noConfusion h
      · have hc : coords = c := by injection h
        have := fillCoords_length records 0 _ coords heq
        rw [← hc]
        simpa using this

lemma cityStep_resolver_err (env : Env) (i : Nat) (st : LoopState) (e : GoErr)
    (h : coordinateWOEID (env.woeFetch i) = Except.error e) :
    cityStep env i st = Except.error (e, { st with resolverCalls := st.resolverCalls + 1 }) := by
  simp only [cityStep, h]

lemma cityStep_ok_of (env : Env) (i : Nat) (st : LoopState) (w : ℤ) (t : ℚ)
    (hw : coordinateWOEID (env.woeFetch i) = Except.ok w)
    (ht : woeIDTemperature (env.tempFetch i) = Except.ok t) :
    cityStep env i st = Except.ok
      { tempCount := st.tempCount + 1, tempSum := st.tempSum + t,
        resolverCalls := st.resolverCalls + 1, tempCalls := st.tempCalls + 1,
        skipLogs := st.skipLogs } := by
  simp only [cityStep, hw, ht]

lemma cityStep_skip_of (env : Env) (i : Nat) (st : LoopState) (w : ℤ)
    (hw : coordinateWOEID (env.woeFetch i) = Except.ok w)
    (ht : woeIDTemperature (env.tempFetch i) = Except.error GoErr.errNoTemperature) :
    cityStep env i st = Except.ok
      { tempCount := st.tempCount + 1, tempSum := st.tempSum + 0,
        resolverCalls := st.resolverCalls + 1, tempCalls := st.tempCalls + 1,
        skipLogs := st.skipLogs ++ [w] } := by
  simp only [cityStep, hw, ht]

lemma runCities_spec (env : Env) (w : Nat → ℤ) (temp : Nat → Option ℚ) :
    ∀ (n s : Nat) (st : LoopState),
    (∀ i, s ≤ i → i < s + n → coordinateWOEID (env.woeFetch i) = Except.ok (w i)) →
    (∀ i, s ≤ i → i < s + n →
      woeIDTemperature (env.tempFetch i) =
        (match temp i with
         | some t => Except.ok t
         | none => Except.error GoErr.errNoTemperature)) →
    runCities env (List.range' s n) st =
      ({ tempCount := st.tempCount + (n : ℚ),
         tempSum := st.tempSum + Finset.sum (Finset.range n) (fun j => (temp (s + j)).getD 0),
         resolverCalls := st.resolverCalls + n,
         tempCalls := st.tempCalls + n,
         skipLogs := st.skipLogs ++ (((List.range' s n).filter (fun i => (temp i).isNone)).map w) },
       none) := by
  intro n
  induction n with
  | zero =>
    intro s st h1 h2
    simp [runCities, List.range']
  | succ n ih =>
    intro s st h1 h2
    rw [List.range'_succ]
    have hw := h1 s (Nat.le_refl s) (by omega)
    have ht := h2 s (Nat.le_refl s) (by omega)
    have hsum : Finset.sum (Finset.range n) (fun j => ((temp (s + 1 + j)).getD 0 : ℚ)) =
        Finset.sum (Finset.range n) (fun j => ((temp (s + (j + 1))).getD 0 : ℚ)) :=
      Finset.sum_congr rfl (fun j _ => by rw [show s + 1 + j = s + (j + 1) by omega])
    rcases htemp : temp s with - | t
    · rw [htemp] at ht
      simp only [runCities, cityStep_skip_of env s st (w s) hw ht]
      rw [ih (s + 1) _ (fun i hi1 hi2 => h1 i (by omega) (by omega))
            (fun i hi1 hi2 => h2 i (by omega) (by omega))]
      simp only [Prod.mk.injEq, LoopState.mk.injEq]
      refine ⟨⟨?_, ?_, ?_, ?_, ?_⟩, trivial⟩
      · push_cast
        ring
      · rw [Finset.sum_range_succ', hsum]
        simp only [Nat.add_zero, htemp, Option.getD_none]
        ring
      · omega
      · omega
      · simp only [List.filter_cons, htemp, Option.isNone_none, List.map_cons]
        simp
    · rw [htemp] at ht
      simp only [runCities, cityStep_ok_of env s st (w s) t hw ht]
      rw [ih (s + 1) _ (fun i hi1 hi2 => h1 i (by omega) (by omega))
            (fun i hi1 hi2 => h2 i (by omega) (by omega))]
      simp only [Prod.mk.injEq, LoopState.mk.injEq]
      refine ⟨⟨?_, ?_, ?_, ?_, ?_⟩, trivial⟩
      · push_cast
        ring
      · rw [Finset.sum_range_succ', hsum]
        simp only [Nat.add_zero, htemp, Option.getD_some]
        ring
      · omega
      · omega
      · simp only [List.filter_cons, htemp, Option.isNone_some, List.map_cons]
        simp

lemma cityStep_temp_err (env : Env) (i : Nat) (st : LoopState) (w : ℤ) (e : GoErr)
    (hw : coordinateWOEID (env.woeFetch i) = Except.ok w)
    (ht : woeIDTemperature (env.tempFetch i) = Except.error e)
    (hne : e ≠ GoErr.errNoTemperature) :
    cityStep env i st = Except.error (e,
      { st with resolverCalls := st.resolverCalls + 1, tempCalls := st.tempCalls + 1 }) := by
  cases e
  case errNoTemperature => exact absurd rfl hne
  all_goals simp only [cityStep, hw, ht]

lemma cityStep_ok_tempCount (env : Env) (i : Nat) (st st1 : LoopState)
    (h : cityStep env i st = Except.ok st1) : st1.tempCount = st.tempCount + 1 := by
  rcases hw : coordinateWOEID (env.woeFetch i) with e | wv
  · rw [cityStep_resolver_err env i st e hw] at h
    exact Except.noConfusion h
  · rcases ht : woeIDTemperature (env.tempFetch i) with e | t
    · by_cases hne : e = GoErr.errNoTemperature
      · subst hne
        rw [cityStep_skip_of env i st wv hw ht] at h
        injection h with h2
        rw [← h2]
      · rw [cityStep_temp_err env i st wv e hw ht hne] at h
        exact Except.noConfusion h
    · rw [cityStep_ok_of env i st wv t hw ht] at h
      injection h with h2
      rw [← h2]

lemma runCities_none_tempCount (env : Env) : ∀ (l : List Nat) (st st1 : LoopState),
    runCities env l st = (st1, none) → st1.tempCount = st.tempCount + (l.length : ℚ) := by
  intro l
  induction l with
  | nil =>
    intro st st1 h
    simp only [runCities, Prod.mk.injEq] at h
    rw [← h.1]
    simp
  | cons i rest ih =>
    intro st st1 h
    rcases hstep : cityStep env i st with ⟨e, stE⟩ | stN
    · simp only [runCities, hstep] at h
      injection h with h1 h2
      exact Option.noConfusion h2
    · simp only [runCities, hstep] at h
      have := ih stN st1 h
      rw [this, cityStep_ok_tempCount env i st stN hstep]
      simp only [List.length_cons]
      push_cast
      ring

lemma runCities_append (env : Env) : ∀ (l1 l2 : List Nat) (st : LoopState),
    runCities env (l1 ++ l2) st =
      (match runCities env l1 st with
       | (st1, none) => runCities env l2 st1
       | (st1, some e) => (st1, some e)) := by
  intro l1
  induction l1 with
  | nil =>
    intro l2 st
    simp [runCities]
  | cons i rest ih =>
    intro l2 st
    simp only [List.cons_append, runCities]
    rcases hstep : cityStep env i st with ⟨e, stE⟩ | stN
    · simp only [hstep]
    · simp only [hstep]
      exact ih l2 stN

lemma mainGo_city_err (env : Env) (e : GoErr)
    (h : largest100USCities env.cityFetch = FetchOut.err e) :
    mainGo env = some { resolverCalls := 0, tempCalls := 0, skipLogs := [],
                        summary := none, fatalErr := some e } := by
  simp only [mainGo, h]

lemma mainGo_spec (env : Env) (records : List (List ℚ)) (w : Nat → ℤ) (temp : Nat → Option ℚ)
    (hc : env.cityFetch = Except.ok records) (hlen : records.length = 100)
    (h1 : ∀ i, i < 100 → coordinateWOEID (env.woeFetch i) = Except.ok (w i))
    (h2 : ∀ i, i < 100 → woeIDTemperature (env.tempFetch i) =
      (match temp i with
       | some t => Except.ok t
       | none => Except.error GoErr.errNoTemperature)) :
    mainGo env = some
      { resolverCalls := 100, tempCalls := 100,
        skipLogs := ((List.range' 0 100).filter (fun i => (temp i).isNone)).map w,
        summary := some (100, Finset.sum (Finset.range 100) (fun j => (temp j).getD 0) / 100),
        fatalErr := none } := by
  rw [mainGo.eq_def, hc, largest_ok_of_eq records hlen]
  simp only [List.length_map, hlen, List.range_eq_range']
  rw [runCities_spec env w temp 100 0 initState
    (fun i hi1 hi2 => h1 i (by omega)) (fun i hi1 hi2 => h2 i (by omega))]
  simp only [initState, Nat.zero_add, zero_add, List.nil_append, Option.some.injEq,
    RunReport.mk.injEq]
  refine ⟨trivial, trivial, trivial, ?_, trivial⟩
  norm_num

lemma mainGo_resolver_fatal_aux (env : Env) (records : List (List ℚ)) (j : Nat)
    (w : Nat → ℤ) (t : Nat → ℚ)
    (hc : env.cityFetch = Except.ok records) (hlen : records.length = 100) (hj : j < 100)
    (h1 : ∀ i, i < j → coordinateWOEID (env.woeFetch i) = Except.ok (w i))
    (h2 : ∀ i, i < j → woeIDTemperature (env.tempFetch i) = Except.ok (t i))
    (h3 : coordinateWOEID (env.woeFetch j) = Except.error GoErr.errNoWoe) :
    mainGo env = some { resolverCalls := j + 1, tempCalls := j, skipLogs := [],
                        summary := none, fatalErr := some GoErr.errNoWoe } := by
  rw [mainGo.eq_def, hc, largest_ok_of_eq records hlen]
  simp only [List.length_map, hlen, List.range_eq_range']
  have hsplit : List.range' 0 100 = List.range' 0 j ++ List.range' (0 + j) (100 - j) := by
    rw [List.range'_append_1]
    congr 1
    omega
  rw [hsplit, runCities_append]
  rw [runCities_spec env w (fun i => some (t i)) j 0 initState
    (fun i hi1 hi2 => h1 i (by omega)) (fun i hi1 hi2 => by simpa using h2 i (by omega))]
  have h100 : 100 - j = (100 - j - 1) + 1 := by omega
  rw [h100, List.range'_succ]
  simp only [runCities]
  rw [cityStep_resolver_err env (0 + j) _ GoErr.errNoWoe (by simpa using h3)]
  simp [initState]

lemma mainGo_summary_count (env : Env) (r : RunReport) (c m : ℚ)
    (h : mainGo env = some r) (hs : r.summary = some (c, m)) : c = 100 := by
  rw [mainGo.eq_def] at h
  rcases hL : largest100USCities env.cityFetch with coords | e | -
  · rw [hL] at h
    simp only [] at h
    rcases hrun : runCities env (List.range coords.length) initState with ⟨st1, err2⟩
    rw [hrun] at h
    rcases err2 with - | e
    · simp only [] at h
      injection h with h4
      rw [← h4] at hs
      simp only [Option.some.injEq, Prod.mk.injEq] at hs
      rcases hs with ⟨hc2, -⟩
      have hcount := runCities_none_tempCount env (List.range coords.length) initState st1 hrun
      have hclen : coords.length = 100 := largest_ok_length env.cityFetch coords hL
      rw [← hc2, hcount]
      simp [initState, hclen]
    · simp only [] at h
      injection h with h4
      rw [← h4] at hs
      exact Option.noConfusion hs
  · rw [hL] at h
    simp only [] at h
    injection h with h4
    rw [← h4] at hs
    exact Option.noConfusion hs
  · rw [hL] at h
    exact Option.noConfusion h



/-- C2: for every cities-endpoint response containing fewer than 100
coordinate records, `largest100USCities` fails with the dedicated
"incomplete city list" error `ErrNot100Cities` and returns no usable
coordinate collection (the error outcome carries none). -/
theorem claim_c2_fewer_than_100_records_err (records : List (List ℚ))
    (h : records.length < 100) :
    largest100USCities (Except.ok records) = FetchOut.err GoErr.errNot100Cities :=
  largest_err_of_lt records h

/-- Witness for C2 at a concrete 95-record response. -/
theorem claim_c2_witness :
    (List.replicate 95 [(1 : ℚ), 2]).length < 100 ∧
    largest100USCities (Except.ok (List.replicate 95 [(1 : ℚ), 2])) =
      FetchOut.err GoErr.errNot100Cities :=
  ⟨by simp, claim_c2_fewer_than_100_records_err (List.replicate 95 [(1 : ℚ), 2]) (by simp)⟩

/-- C3: for every cities-endpoint response containing exactly 100 coordinate
records, `largest100USCities` succeeds with exactly 100 `coordinates` values,
and the i-th returned coordinate is the parse of the i-th record of the
response: the result is the record list mapped through `parseCoord`, so
response order is preserved. -/
theorem claim_c3_exactly_100_records_ok (records : List (List ℚ))
    (h : records.length = 100) :
    largest100USCities (Except.ok records) = FetchOut.ok (records.map parseCoord) ∧
    (records.map parseCoord).length = 100 ∧
    (∀ i, i < 100 →
      (records.map parseCoord).getD i { Latitude := 0, Longitude := 0 } =
        parseCoord (records.getD i [])) := by
  refine ⟨largest_ok_of_eq records h, by simp [h], ?_⟩
  intro i hi
  have hi2 : i < records.length := by omega
  rw [List.getD_eq_getElem?_getD, List.getElem?_map, List.getD_eq_getElem?_getD]
  rw [List.getElem?_eq_getElem hi2]
  simp [List.getD_eq_getElem?_getD, List.getElem?_eq_getElem hi2]

/-- Witness for C3 at a concrete 100-record response. -/
theorem claim_c3_witness :
    largest100USCities (Except.ok (List.replicate 100 [(1 : ℚ), 2])) =
      FetchOut.ok ((List.replicate 100 [(1 : ℚ), 2]).map parseCoord) ∧
    ((List.replicate 100 [(1 : ℚ), 2]).map parseCoord).length = 100 ∧
    (∀ i, i < 100 →
      ((List.replicate 100 [(1 : ℚ), 2]).map parseCoord).getD i { Latitude := 0, Longitude := 0 } =
        parseCoord ((List.replicate 100 [(1 : ℚ), 2]).getD i [])) :=
  claim_c3_exactly_100_records_ok (List.replicate 100 [(1 : ℚ), 2]) (by simp)

/-- C4: for every resolver response whose first array element carries a
non-zero `woeid`, `coordinateWOEID` returns that identifier with no error;
for an empty array, an absent `woeid` field, or a zero `woeid`, it fails with
the dedicated "no location identifier" error `ErrNoWoe`. -/
theorem claim_c4_woeid_first_element (woeID : ℤ) (rest : List (Option ℤ))
    (hw : woeID ≠ 0) :
    coordinateWOEID (Except.ok (some woeID :: rest)) = Except.ok woeID ∧
    coordinateWOEID (Except.ok []) = Except.error GoErr.errNoWoe ∧
    coordinateWOEID (Except.ok (none :: rest)) = Except.error GoErr.errNoWoe ∧
    coordinateWOEID (Except.ok (some 0 :: rest)) = Except.error GoErr.errNoWoe :=
  ⟨by simp [coordinateWOEID, hw], rfl, rfl, rfl⟩

/-- Witness for C4 at the concrete identifier 5 and at the empty array. -/
theorem claim_c4_witness :
    (5 : ℤ) ≠ 0 ∧
    coordinateWOEID (Except.ok [some (5 : ℤ)]) = Except.ok 5 ∧
    coordinateWOEID (Except.ok []) = Except.error GoErr.errNoWoe :=
  ⟨by decide, (claim_c4_woeid_first_element 5 [] (by decide)).1,
    (claim_c4_woeid_first_element 5 [] (by decide)).2.1⟩

/-- C5: for every temperature response whose first array element carries a
non-zero `the_temp` reading, `woeIDTemperature` returns that value with no
error; for an empty array, an absent reading, or a zero reading, it fails
with the dedicated "no temperature reading" error `ErrNoTemperature` — the
last conjunct shows a legitimate zero-degree reading is indistinguishable
from a missing one. -/
theorem claim_c5_temperature_first_element (t : ℚ) (rest : List (Option ℚ))
    (ht : t ≠ 0) :
    woeIDTemperature (Except.ok (some t :: rest)) = Except.ok t ∧
    woeIDTemperature (Except.ok []) = Except.error GoErr.errNoTemperature ∧
    woeIDTemperature (Except.ok (none :: rest)) = Except.error GoErr.errNoTemperature ∧
    woeIDTemperature (Except.ok (some 0 :: rest)) = Except.error GoErr.errNoTemperature :=
  ⟨by simp [woeIDTemperature, ht], rfl, rfl, by simp [woeIDTemperature]⟩

/-- Witness for C5 at the concrete reading 70 and at a zero reading. -/
theorem claim_c5_witness :
    (70 : ℚ) ≠ 0 ∧
    woeIDTemperature (Except.ok [some (70 : ℚ)]) = Except.ok 70 ∧
    woeIDTemperature (Except.ok [some (0 : ℚ)]) = Except.error GoErr.errNoTemperature :=
  ⟨by norm_num, (claim_c5_temperature_first_element 70 [] (by norm_num)).1,
    (claim_c5_temperature_first_element 70 [] (by norm_num)).2.2.2⟩

/-- C9: the unguarded array write `coords[index]` of `largest100USCities`
panics (index out of range) exactly when the parsed records array holds more
than 100 elements, since the count check only runs after the loop; for at
most 100 elements every write is in bounds and no panic occurs. -/
theorem claim_c9_write_bounds (records : List (List ℚ)) :
    largest100USCities (Except.ok records) = FetchOut.indexOutOfRange ↔
      100 < records.length :=
  largest_outOfRange_iff records

/-- C6: on every run whose cities response holds fewer than 100 records, the
orchestrator aborts with the "incomplete city list" fatal error before the
per-city loop: zero resolver calls, zero temperature calls, no skip logs and
no summary line. -/
theorem claim_c6_incomplete_city_list_aborts (env : Env) (records : List (List ℚ))
    (hc : env.cityFetch = Except.ok records) (hlen : records.length < 100) :
    mainGo env = some { resolverCalls := 0, tempCalls := 0, skipLogs := [],
                        summary := none, fatalErr := some GoErr.errNot100Cities } :=
  mainGo_city_err env GoErr.errNot100Cities
    (by rw [hc]; exact largest_err_of_lt records hlen)

/-- Witness for C6 at the concrete 95-record scenario C environment. -/
theorem claim_c6_witness :
    (List.replicate 95 [(1 : ℚ), 2]).length < 100 ∧
    mainGo envScenarioC = some { resolverCalls := 0, tempCalls := 0, skipLogs := [],
                                 summary := none, fatalErr := some GoErr.errNot100Cities } :=
  ⟨by simp,
    claim_c6_incomplete_city_list_aborts envScenarioC (List.replicate 95 [(1 : ℚ), 2])
      rfl (by simp)⟩

/-- C7: on every run whose first `j` resolver and temperature calls succeed
and whose resolver call for city `j` (0-based) fails with `ErrNoWoe`, the
orchestrator aborts with the "no location identifier" fatal error after
processing the first `j` cities (`j + 1` resolver calls, `j` temperature
calls) and never prints the summary line: the partial aggregate is
discarded, not reported. -/
theorem claim_c7_resolver_failure_fatal (env : Env) (records : List (List ℚ)) (j : Nat)
    (w : Nat → ℤ) (t : Nat → ℚ)
    (hc : env.cityFetch = Except.ok records) (hlen : records.length = 100) (hj : j < 100)
    (h1 : ∀ i, i < j → coordinateWOEID (env.woeFetch i) = Except.ok (w i))
    (h2 : ∀ i, i < j → woeIDTemperature (env.tempFetch i) = Except.ok (t i))
    (h3 : coordinateWOEID (env.woeFetch j) = Except.error GoErr.errNoWoe) :
    mainGo env = some { resolverCalls := j + 1, tempCalls := j, skipLogs := [],
                        summary := none, fatalErr := some GoErr.errNoWoe } :=
  mainGo_resolver_fatal_aux env records j w t hc hlen hj h1 h2 h3

/-- Witness for C7 at scenario D: the 42nd coordinate (index 41) resolves to
an empty array. -/
theorem claim_c7_witness :
    mainGo envScenarioD = some { resolverCalls := 42, tempCalls := 41, skipLogs := [],
                                 summary := none, fatalErr := some GoErr.errNoWoe } := by
  have h := claim_c7_resolver_failure_fatal envScenarioD (List.replicate 100 [(1 : ℚ), 2]) 41
    (fun _ => 7) (fun _ => 50) rfl (by simp) (by omega)
    (fun i hi => by
      simp only [envScenarioD]
      rw [if_neg (by omega : ¬i = 41)]
      rfl)
    (fun i hi => rfl)
    rfl
  simpa using h

/-- C8: on every run with 100 valid city records in which every resolver and
temperature call succeeds (non-zero readings `t i`), the orchestrator prints
exactly one summary line with the city count 100 and the arithmetic mean of
the 100 readings — the accumulated sum divided by the accumulated count. The
`%.2f` rendering of that mean on the printed line is display formatting,
outside this model. -/
theorem claim_c8_all_success_mean (env : Env) (records : List (List ℚ))
    (w : Nat → ℤ) (t : Nat → ℚ)
    (hc : env.cityFetch = Except.ok records) (hlen : records.length = 100)
    (h1 : ∀ i, i < 100 → coordinateWOEID (env.woeFetch i) = Except.ok (w i))
    (h2 : ∀ i, i < 100 → woeIDTemperature (env.tempFetch i) = Except.ok (t i)) :
    mainGo env = some
      { resolverCalls := 100, tempCalls := 100, skipLogs := [],
        summary := some (100, Finset.sum (Finset.range 100) t / 100),
        fatalErr := none } := by
  have h := mainGo_spec env records w (fun i => some (t i)) hc hlen h1
    (fun i hi => h2 i hi)
  rw [h]
  simp only [Option.isNone_some, Option.getD_some, List.filter_false, List.map_nil]

/-- Witness for C8 at scenario A, where all 100 readings are 50 degrees. -/
theorem claim_c8_witness :
    mainGo envScenarioA = some
      { resolverCalls := 100, tempCalls := 100, skipLogs := [],
        summary := some (100, 50), fatalErr := none } := by
  have h := claim_c8_all_success_mean envScenarioA (List.replicate 100 [(1 : ℚ), 2])
    (fun _ => 7) (fun _ => 50) rfl (by simp) (fun i hi => rfl) (fun i hi => rfl)
  rw [h]
  norm_num [Finset.sum_const, Finset.card_range]

/-- C10: whenever a run reaches the report phase, the printed city-count
context is exactly 100, because `tempCount` is incremented on every loop
iteration; and on a soft "no temperature reading" iteration the step still
increments the count and adds the returned zero temperature to the sum while
logging the skip. -/
theorem claim_c10_count_always_100 :
    (∀ (env : Env) (r : RunReport) (c m : ℚ),
      mainGo env = some r → r.summary = some (c, m) → c = 100) ∧
    (∀ (env : Env) (i : Nat) (st : LoopState) (w : ℤ),
      coordinateWOEID (env.woeFetch i) = Except.ok w →
      woeIDTemperature (env.tempFetch i) = Except.error GoErr.errNoTemperature →
      cityStep env i st = Except.ok
        { tempCount := st.tempCount + 1, tempSum := st.tempSum + 0,
          resolverCalls := st.resolverCalls + 1, tempCalls := st.tempCalls + 1,
          skipLogs := st.skipLogs ++ [w] }) :=
  ⟨fun env r c m h hs => mainGo_summary_count env r c m h hs,
    fun env i st w hw ht => cityStep_skip_of env i st w hw ht⟩

/-- Evaluation of the orchestrator on the all-success scenario A
environment. -/
lemma mainGo_envScenarioA :
    mainGo envScenarioA = some
      { resolverCalls := 100, tempCalls := 100, skipLogs := [],
        summary := some (100, 50), fatalErr := none } := by
  have h := mainGo_spec envScenarioA (List.replicate 100 [(1 : ℚ), 2])
    (fun _ => 7) (fun _ => some 50) rfl (by simp) (fun i hi => rfl) (fun i hi => rfl)
  rw [h]
  simp only [Option.isNone_some, Option.getD_some, List.filter_false, List.map_nil]
  norm_num [Finset.sum_const, Finset.card_range]

/-- Witness for C10 at scenario A, whose summary count is 100. -/
theorem claim_c10_witness :
    mainGo envScenarioA = some
      { resolverCalls := 100, tempCalls := 100, skipLogs := [],
        summary := some (100, 50), fatalErr := none } ∧ (100 : ℚ) = 100 :=
  ⟨mainGo_envScenarioA,
    claim_c10_count_always_100.1 envScenarioA
      { resolverCalls := 100, tempCalls := 100, skipLogs := [],
        summary := some (100, 50), fatalErr := none }
      100 50 mainGo_envScenarioA rfl⟩

/-- C1: in scenario B (100 valid records, the temperature fetches of three
cities fail with the "no temperature reading" condition, all else succeeds)
the orchestrator logs exactly 3 skip messages and exits successfully with one
summary line, but the claimed aggregate exclusion does not happen: the
summary reports count 100 and mean `(97 * 50) / 100 = 97 / 2`, not the
claimed `sum / 97 = 4850 / 97`, because the loop increments `tempCount` even
on skipped cities. -/
theorem claim_c1_skipped_cities_still_counted :
    mainGo envScenarioB =
      some { resolverCalls := 100, tempCalls := 100, skipLogs := [7, 7, 7],
             summary := some (100, 97 / 2), fatalErr := none } ∧
    (97 / 2 : ℚ) ≠ 4850 / 97 := by
  constructor
  · have h := mainGo_spec envScenarioB (List.replicate 100 [(1 : ℚ), 2]) (fun _ => 7)
      (fun i => if i = 10 ∨ i = 20 ∨ i = 30 then none else some 50)
      rfl (by simp) (fun i hi => rfl)
      (fun i hi => by
        simp only [envScenarioB]
        by_cases hcase : i = 10 ∨ i = 20 ∨ i = 30
        · rw [if_pos hcase, if_pos hcase]
          rfl
        · rw [if_neg hcase, if_neg hcase]
          rfl)
    rw [h]
    have hskip : (((List.range' 0 100).filter
        (fun i => (if i = 10 ∨ i = 20 ∨ i = 30 then (none : Option ℚ) else some 50).isNone)).map
        (fun _ => (7 : ℤ))) = [7, 7, 7] := by decide
    have hsum : Finset.sum (Finset.range 100)
        (fun j => ((if j = 10 ∨ j = 20 ∨ j = 30 then (none : Option ℚ) else some 50).getD 0)) =
        4850 := by
      norm_num [Finset.sum_range_succ, Finset.sum_range_zero]
    rw [hskip, hsum]
    norm_num
  · norm_num
